import Mathlib

/-!
Verification of drf-simple-api-errors: a shallow embedding of the
exception-to-response formatting library in `drf_simple_api_errors/`
(`formatter.py`, `utils.py`, `exception_handler.py`, `handlers.py`,
`extra_handlers.py`, `exceptions.py`), together with theorems settling the
behavioural claims about it.

Python values appearing inside exception details are modelled by `JVal`
(strings, lists, dicts, and an opaque constructor for any other object).
Python dicts are modelled as association lists in insertion order, with
`pyDict` reproducing the deduplicating semantics of the `dict(items)`
constructor. Exceptions raised by the code are modelled with `Except`.
-/

namespace DrfSimpleApiErrors

/-- A Python value inside an exception detail: a string, a list, a dict
(association list in insertion order), or any other object (`other`),
such as an int or None, which is opaque to the library. -/
inductive JVal where
  | s (v : String)
  | l (vs : List JVal)
  | d (kvs : List (String × JVal))
  | other (tag : Nat)

/-- `True` exactly on dict values; models `isinstance(v, dict)`. -/
def JVal.isDict : JVal → Bool
  | .d _ => true
  | _ => false

/-- `True` exactly on string values; models `isinstance(v, str)`. -/
def JVal.isStr : JVal → Bool
  | .s _ => true
  | _ => false

/-- The `detail` attribute of a DRF `APIException`: DRF coerces it to a
string, a list, or a dict (`rest_framework/exceptions.py`,
`_get_error_details`). -/
inductive ExcDetail where
  | s (v : String)
  | l (vs : List JVal)
  | d (kvs : List (String × JVal))

/-- The DRF exception class of an `APIException` instance, as far as the
`isinstance` checks of this library distinguish them. `apiException`
stands for any other `APIException` subclass. -/
inductive DrfExcClass where
  | validationError
  | notFound
  | permissionDenied
  | methodNotAllowed
  | unsupportedMediaType
  | throttled
  | serverError
  | apiException
deriving DecidableEq

/-- A DRF `APIException` instance: its class, `status_code`,
`default_detail`, `default_code`, `detail`, and the two optional attributes
read by the header extraction (`auth_header`, `wait`). `wait = none`
models both a missing attribute and `wait=None`. -/
structure APIExc where
  cls : DrfExcClass
  status_code : Nat
  default_detail : String
  default_code : String
  detail : ExcDetail
  auth_header : Option String := none
  wait : Option Nat := none

/-- The library settings (`drf_simple_api_errors/settings.py`) together
with the one DRF setting the formatter reads
(`drf_api_settings.NON_FIELD_ERRORS_KEY`). Extra handlers mutate
exceptions in place; since an in-place mutation cannot change the class of
an exception, a handler is modelled as a transformation of `APIExc`
(its action on non-API exceptions cannot influence the pipeline result). -/
structure Settings where
  CAMELIZE : Bool
  FIELDS_SEPARATOR : String
  NON_FIELD_ERRORS_KEY : String
  EXTRA_HANDLERS : List (APIExc → APIExc)

/-- The default configuration: `CAMELIZE = False`, `FIELDS_SEPARATOR = "."`,
`EXTRA_HANDLERS = []`, and the DRF default `NON_FIELD_ERRORS_KEY`. -/
def defaultSettings : Settings :=
  { CAMELIZE := false
    FIELDS_SEPARATOR := "."
    NON_FIELD_ERRORS_KEY := "non_field_errors"
    EXTRA_HANDLERS := [] }

/-- `formatter.InvalidParam`: an invalid parameter of the error response.
The `reason` list holds the (coerced) flattened value, which in the code is
not forced to contain only strings. -/
structure InvalidParam where
  name : String
  reason : List JVal

/-- `formatter.APIErrorResponse`: the structured error body. `to_dict`
only renames the three keys (camelization of the schema keys), so the
response is modelled by this record directly. -/
structure APIErrorResponse where
  title : String := ""
  detail : Option (List JVal) := none
  invalid_params : Option (List InvalidParam) := none

/-- A Python exception escaping the formatter (the `TypeError` raised by
`_format_exc_detail_list`). -/
inductive PyError where
  | typeError
deriving DecidableEq

/-- `True` on the characters matched by the regex class `[a-z0-9]` of
`utils.camelize`. -/
def isLowerDigit (c : Char) : Bool :=
  c.isLower || c.isDigit

/-- Character-level model of `re.sub(r"[a-z0-9]?_[a-z0-9]", underscore_to_camel, s)`
from `utils.camelize`: scan left to right for non-overlapping leftmost
matches; a three-character match `a_b` is rewritten to `a` + uppercase `b`,
a two-character match `_b` (no preceding `[a-z0-9]` character available) is
kept verbatim. -/
def camelizeChars : List Char → List Char
  | a :: '_' :: b :: rest =>
      if isLowerDigit a && isLowerDigit b then
        a :: b.toUpper :: camelizeChars rest
      else if isLowerDigit b then
        a :: '_' :: b :: camelizeChars rest
      else
        a :: camelizeChars ('_' :: b :: rest)
  | '_' :: b :: rest =>
      if isLowerDigit b then
        '_' :: b :: camelizeChars rest
      else
        '_' :: camelizeChars (b :: rest)
  | c :: rest => c :: camelizeChars rest
  | [] => []

/-- `utils.camelize`: identity when the `CAMELIZE` setting is off,
otherwise the regex substitution above. -/
def camelize (st : Settings) (s : String) : String :=
  if st.CAMELIZE then String.mk (camelizeChars s.data) else s

/-- `sep.join([parent_key, k]) if parent_key and sep else k` from
`utils.flatten_dict` (string truthiness is non-emptiness). -/
def joinKey (sep parent k : String) : String :=
  if parent ≠ "" && sep ≠ "" then parent ++ sep ++ k else k

/-- One step of the Python `dict(items)` constructor: inserting a pair
updates the value in place if the key is already present, otherwise
appends the pair. -/
def dictInsert : List (String × JVal) → String × JVal → List (String × JVal)
  | [], p => [p]
  | q :: rest, p => if q.1 = p.1 then (q.1, p.2) :: rest else q :: dictInsert rest p

/-- The Python `dict(items)` constructor applied to a list of pairs:
first-occurrence key order, last-occurrence values. -/
def pyDict (items : List (String × JVal)) : List (String × JVal) :=
  items.foldl dictInsert []

/-- The `items` list built by the loop of `utils.flatten_dict`: dict
values are recursively flattened (each recursive call going through
`dict(items)` again, as in the source), all other values are emitted with
their joined key. -/
def flattenItems (sep : String) : List (String × JVal) → String → List (String × JVal)
  | [], _ => []
  | (k, v) :: rest, parent =>
      (match v with
       | .d kvs => pyDict (flattenItems sep kvs (joinKey sep parent k))
       | v => [(joinKey sep parent k, v)]) ++ flattenItems sep rest parent

/-- `utils.flatten_dict`: flatten a nested dict into a single-level dict
whose keys are joined with the `FIELDS_SEPARATOR` setting. -/
def flatten_dict (st : Settings) (data : List (String × JVal)) (parent_key : String) :
    List (String × JVal) :=
  pyDict (flattenItems st.FIELDS_SEPARATOR data parent_key)

/-- `field in [drf_api_settings.NON_FIELD_ERRORS_KEY, "__all__"]` from
`formatter._format_exc_detail_dict`. -/
def isNonFieldKey (st : Settings) (field : String) : Bool :=
  field = st.NON_FIELD_ERRORS_KEY || field = "__all__"

/-- The value coercion shared by both branches of the loop in
`formatter._format_exc_detail_dict`: a list contributes its elements
(`extend` / `reason=error`), anything else is wrapped in a singleton list
(`append` / `reason=[error]`). -/
def coerceToList : JVal → List JVal
  | .l es => es
  | v => [v]

/-- The loop of `formatter._format_exc_detail_dict`: walk the flattened
items in order, routing non-field-error values into the second component
and turning every other pair into an `InvalidParam` in the first. -/
def gatherErrors (st : Settings) : List (String × JVal) → List InvalidParam × List JVal
  | [] => ([], [])
  | (field, error) :: rest =>
      let acc := gatherErrors st rest
      if isNonFieldKey st field then
        (acc.1, coerceToList error ++ acc.2)
      else
        ({ name := camelize st field, reason := coerceToList error } :: acc.1, acc.2)

/-- `formatter._format_exc_detail_dict`: flatten the detail dict, gather
invalid params and non-field errors, and set each response field only when
the gathered list is truthy (non-empty). -/
def _format_exc_detail_dict (st : Settings) (data : APIErrorResponse)
    (exc_detail : List (String × JVal)) : APIErrorResponse :=
  let acc := gatherErrors st (flatten_dict st exc_detail "")
  let data1 :=
    match acc.1 with
    | [] => data
    | ips => { data with invalid_params := some ips }
  match acc.2 with
  | [] => data1
  | nfes => { data1 with detail := some nfes }

/-- The loop of `formatter._format_exc_detail_list`: string elements are
kept, list elements are spliced in place (one level), any other element
raises `TypeError`. -/
def collectDetailList : List JVal → Except PyError (List JVal)
  | [] => .ok []
  | JVal.s v :: rest => (collectDetailList rest).map (fun detail => JVal.s v :: detail)
  | JVal.l es :: rest => (collectDetailList rest).map (fun detail => es ++ detail)
  | _ :: _ => .error .typeError

/-- `formatter._format_exc_detail_list`: run the loop; set `detail` only
when the resulting list is truthy (non-empty). -/
def _format_exc_detail_list (data : APIErrorResponse) (exc_detail : List JVal) :
    Except PyError APIErrorResponse :=
  match collectDetailList exc_detail with
  | .ok detail =>
      .ok (match detail with
           | [] => data
           | detail => { data with detail := some detail })
  | .error e => .error e

/-- `formatter._is_exc_detail_same_as_default_detail`: the detail is the
default detail, either as a bare string or as a singleton list holding
exactly that string. -/
def _is_exc_detail_same_as_default_detail (exc : APIExc) : Bool :=
  match exc.detail with
  | ExcDetail.s v => v = exc.default_detail
  | ExcDetail.l [JVal.s v] => v = exc.default_detail
  | _ => false

/-- The shape dispatch at the end of `formatter.format_exc`: a string
detail is wrapped into a singleton list, a dict detail goes to
`_format_exc_detail_dict`, everything else to `_format_exc_detail_list`. -/
def dispatchExcDetail (st : Settings) (data : APIErrorResponse) :
    ExcDetail → Except PyError APIErrorResponse
  | ExcDetail.s v => _format_exc_detail_list data [JVal.s v]
  | ExcDetail.d kvs => .ok (_format_exc_detail_dict st data kvs)
  | ExcDetail.l es => _format_exc_detail_list data es

/-- `formatter.format_exc`: ValidationError gets the fixed title; any
other exception gets its `default_detail` as title and short-circuits to a
title-only response when its detail equals the default detail. -/
def format_exc (st : Settings) (exc : APIExc) : Except PyError APIErrorResponse :=
  if exc.cls = DrfExcClass.validationError then
    dispatchExcDetail st { title := "Validation error." } exc.detail
  else if _is_exc_detail_same_as_default_detail exc then
    .ok { title := exc.default_detail }
  else
    dispatchExcDetail st { title := exc.default_detail } exc.detail

/-- Python `str.capitalize()`: first character uppercased, the rest
lowercased. -/
def pyCapitalize (s : String) : String :=
  match s.data with
  | [] => ""
  | c :: rest => String.mk (c.toUpper :: rest.map Char.toLower)

/-- Python `s.replace("_", " ")` for the single-character pattern used in
`extra_handlers.py`: a character-wise substitution. -/
def pyReplaceUnderscoreWithSpace (s : String) : String :=
  String.mk (s.data.map (fun c => if c = '_' then ' ' else c))

/-- `extra_handlers.set_default_detail_to_formatted_exc_default_code`:
for `MethodNotAllowed` and `UnsupportedMediaType`, rewrite
`default_detail` to the capitalized `default_code` with underscores
replaced by spaces, followed by a period. -/
def set_default_detail_to_formatted_exc_default_code (exc : APIExc) : APIExc :=
  if exc.cls = DrfExcClass.methodNotAllowed ∨ exc.cls = DrfExcClass.unsupportedMediaType then
    { exc with
      default_detail := pyCapitalize (pyReplaceUnderscoreWithSpace exc.default_code) ++ "." }
  else
    exc

/-- An exception arriving at the entry point: a DRF `APIException`, one of
the three recognized Django exception kinds, or anything else (`unknown`).
A Django `ValidationError` carries the dict produced for it by DRF
`as_serializer_error`. -/
inductive Exc where
  | api (e : APIExc)
  | djangoValidationError (serializerErrors : List (String × JVal))
  | http404
  | djangoPermissionDenied
  | unknown (tag : Nat)

/-- A DRF `ValidationError` with the given detail (status 400,
`default_detail` "Invalid input.", `default_code` "invalid"). -/
def mkValidationError (detail : ExcDetail) : APIExc :=
  { cls := DrfExcClass.validationError
    status_code := 400
    default_detail := "Invalid input."
    default_code := "invalid"
    detail := detail }

/-- `rest_framework.exceptions.NotFound()` as produced by the conversion
of `Http404`. -/
def NotFound : APIExc :=
  { cls := DrfExcClass.notFound
    status_code := 404
    default_detail := "Not found."
    default_code := "not_found"
    detail := ExcDetail.s "Not found." }

/-- `rest_framework.exceptions.PermissionDenied()` as produced by the
conversion of the Django `PermissionDenied`. -/
def PermissionDenied : APIExc :=
  { cls := DrfExcClass.permissionDenied
    status_code := 403
    default_detail := "You do not have permission to perform this action."
    default_code := "permission_denied"
    detail := ExcDetail.s "You do not have permission to perform this action." }

/-- `exceptions.ServerError`: the 500 sentinel returned verbatim by the
entry point for unhandled exceptions (status 500, default detail
"Server error."). -/
def ServerError : APIExc :=
  { cls := DrfExcClass.serverError
    status_code := 500
    default_detail := "Server error."
    default_code := "internal_server_error"
    detail := ExcDetail.s "Server error." }

/-- `exception_handler._convert_django_exc_to_drf_api_exc` (identical to
`handlers.convert_django_exc_to_drf_api_exc`): translate the three
recognized Django exception kinds, pass everything else through. -/
def _convert_django_exc_to_drf_api_exc : Exc → Exc
  | Exc.djangoValidationError errs => Exc.api (mkValidationError (ExcDetail.d errs))
  | Exc.http404 => Exc.api NotFound
  | Exc.djangoPermissionDenied => Exc.api PermissionDenied
  | e => e

/-- `exception_handler._apply_extra_handlers`, the private copy used by
the entry point: applies ONLY the handlers of the `EXTRA_HANDLERS`
setting, in order. Handlers mutate in place, so they act on the `api`
variant and cannot change the kind of the exception. -/
def _apply_extra_handlers (st : Settings) : Exc → Exc
  | Exc.api e => Exc.api (st.EXTRA_HANDLERS.foldl (fun x h => h x) e)
  | e => e

/-- `handlers.apply_extra_handlers`: applies the always-on default handler
`set_default_detail_to_formatted_exc_default_code` first, then the
handlers of the `EXTRA_HANDLERS` setting, in order. -/
def apply_extra_handlers (st : Settings) : Exc → Exc
  | Exc.api e =>
      Exc.api ((set_default_detail_to_formatted_exc_default_code :: st.EXTRA_HANDLERS).foldl
        (fun x h => h x) e)
  | e => e

/-- `exception_handler._get_response_headers`: emit `WWW-Authenticate`
from a truthy `auth_header` and `Retry-After` from a truthy `wait`
(`"%d" % wait`); `getattr(exc, attr, None)` truthiness drops `None`,
the empty string and `0`. -/
def _get_response_headers (exc : APIExc) : List (String × String) :=
  (match exc.auth_header with
   | some s => if s ≠ "" then [("WWW-Authenticate", s)] else []
   | none => []) ++
  (match exc.wait with
   | some w => if w ≠ 0 then [("Retry-After", toString w)] else []
   | none => [])

/-- The value returned by the entry point: either a formatted `Response`
(body, status code taken from the exception, headers), or the unhandled
path `return ServerError`, which yields the fixed `ServerError` sentinel
carrying no information from the original exception. -/
inductive HandlerResult where
  | response (data : APIErrorResponse) (status_code : Nat) (headers : List (String × String))
  | unhandled (sentinel : APIExc)

/-- `exception_handler.exception_handler`, the package entry point: apply
the configured extra handlers (through the private `_apply_extra_handlers`),
convert Django exceptions, bail out with the `ServerError` sentinel for
anything that is still not an `APIException`, and otherwise respond with
the formatted body, the status code of the exception, and its headers. A
`TypeError` raised by the formatter propagates. -/
def exception_handler (st : Settings) (exc : Exc) : Except PyError HandlerResult :=
  let exc1 := _apply_extra_handlers st exc
  match _convert_django_exc_to_drf_api_exc exc1 with
  | Exc.api e =>
      match format_exc st e with
      | .ok data => .ok (HandlerResult.response data e.status_code (_get_response_headers e))
      | .error err => .error err
  | _ => .ok (HandlerResult.unhandled ServerError)

/-- Specification view: `none` for the empty list, `some` otherwise —
the effect of the Python pattern `if lst: data.field = lst` on a field
that starts out as `None`. -/
def listIfNonempty : List α → Option (List α)
  | [] => none
  | l => some l

/-- Specification view of the dict formatter: the flattened values of the
non-field-error sentinel keys, coerced and concatenated in encounter
order. -/
def nonFieldValues (st : Settings) (flat : List (String × JVal)) : List JVal :=
  (flat.filter (fun p => isNonFieldKey st p.1)).flatMap (fun p => coerceToList p.2)

/-- Specification view of the dict formatter: one `InvalidParam` per
non-sentinel flattened key, in encounter order, with camelized name and
coerced reason list. -/
def invalidParamsOf (st : Settings) (flat : List (String × JVal)) : List InvalidParam :=
  (flat.filter (fun p => !isNonFieldKey st p.1)).map
    (fun p => { name := camelize st p.1, reason := coerceToList p.2 })

/-- Specification view of the list formatter: strings kept, nested lists
spliced in place, one level only (defined only on well-shaped elements;
other elements are skipped, but the formatter raises on them anyway). -/
def flattenOneLevel : List JVal → List JVal
  | [] => []
  | JVal.s v :: rest => JVal.s v :: flattenOneLevel rest
  | JVal.l es :: rest => es ++ flattenOneLevel rest
  | _ :: rest => flattenOneLevel rest

/-- An element a list-shaped detail may legally contain: a string or a
list. -/
def isStrOrList : JVal → Bool
  | JVal.s _ => true
  | JVal.l _ => true
  | _ => false

/-- A well-formed flattened leaf for the response invariants: a string, or
a non-empty list all of whose elements are strings. -/
def goodLeaf : JVal → Bool
  | JVal.s _ => true
  | JVal.l vs => !vs.isEmpty && vs.all JVal.isStr
  | _ => false

/-- A settings record with camelization enabled. -/
def camelizeOn : Settings := { defaultSettings with CAMELIZE := true }

/-- `rest_framework.exceptions.MethodNotAllowed("GET")`: the
`default_detail` is the raw format template of the class, the `detail` is
the formatted message. -/
def MethodNotAllowedGET : APIExc :=
  { cls := DrfExcClass.methodNotAllowed
    status_code := 405
    default_detail := "Method \"{method}\" not allowed."
    default_code := "method_not_allowed"
    detail := ExcDetail.s "Method \"GET\" not allowed." }

/-- A DRF `ValidationError` whose detail is the singleton list holding
exactly its own default detail, as produced by
`ValidationError("Invalid input.")` (the constructor wraps a string
argument in a list). -/
def validationEchoesDefaultDetail : APIExc :=
  mkValidationError (ExcDetail.l [JVal.s "Invalid input."])

/-- A plain `APIException` whose detail is the empty string
(`APIException("")`). -/
def apiExceptionEmptyString : APIExc :=
  { cls := DrfExcClass.apiException
    status_code := 500
    default_detail := "A server error occurred."
    default_code := "error"
    detail := ExcDetail.s "" }

/-- An `APIException` subclass with an empty `default_detail` and a dict
detail with one empty-list value and one non-string value. -/
def invariantBreaker : APIExc :=
  { cls := DrfExcClass.apiException
    status_code := 500
    default_detail := ""
    default_code := "error"
    detail := ExcDetail.d [("field", JVal.l []), ("field2", JVal.other 7)] }

/-- A `ValidationError` whose dict detail holds both a non-field error and
a field error. -/
def bothDetailAndParams : APIExc :=
  mkValidationError
    (ExcDetail.d [("non_field_errors", JVal.l [JVal.s "General error."]),
                  ("field", JVal.s "Required.")])

/-- An `APIException` with falsy header attributes (`wait = 0`,
`auth_header = ""`). -/
def throttledZeroWait : APIExc :=
  { cls := DrfExcClass.throttled
    status_code := 429
    default_detail := "Request was throttled."
    default_code := "throttled"
    detail := ExcDetail.s "Request was throttled."
    auth_header := some ""
    wait := some 0 }

/-- A `Throttled` exception with `wait = 60` and an authentication
challenge set. -/
def throttledSixty : APIExc :=
  { cls := DrfExcClass.throttled
    status_code := 429
    default_detail := "Request was throttled."
    default_code := "throttled"
    detail := ExcDetail.s "Request was throttled. Expected available in 60 seconds."
    auth_header := some "Token"
    wait := some 60 }

theorem beq_www_retry : (("WWW-Authenticate" : String) == "Retry-After") = false := by decide

theorem beq_retry_www : (("Retry-After" : String) == "WWW-Authenticate") = false := by decide

theorem listIfNonempty_ne_some_nil (l : List α) : listIfNonempty l ≠ some [] := by
  cases l <;> simp [listIfNonempty]

theorem listIfNonempty_eq_some {l l₂ : List α} (h : listIfNonempty l = some l₂) : l₂ = l := by
  cases l <;> simp [listIfNonempty] at h
  simp [h]

/-- When a detail is dict-shaped, the short-circuit predicate is false. -/
theorem _is_same_of_dict (exc : APIExc) (kvs : List (String × JVal))
    (h : exc.detail = ExcDetail.d kvs) :
    _is_exc_detail_same_as_default_detail exc = false := by
  simp [_is_exc_detail_same_as_default_detail, h]

/-- The list-formatter loop succeeds on well-shaped input, producing the
one-level flattening. -/
theorem collectDetailList_ok (l : List JVal) (h : ∀ e ∈ l, isStrOrList e = true) :
    collectDetailList l = .ok (flattenOneLevel l) := by
  induction l with
  | nil => rfl
  | cons x rest ih =>
    have hx := h x (List.mem_cons_self _ _)
    have hrest : ∀ e ∈ rest, isStrOrList e = true := fun e he => h e (List.mem_cons_of_mem _ he)
    cases x <;> simp [isStrOrList] at hx <;>
      simp [collectDetailList, flattenOneLevel, Except.map, ih hrest]

/-- The list-formatter loop raises `TypeError` when some element is
neither a string nor a list. -/
theorem collectDetailList_err (l : List JVal) (h : ∃ e ∈ l, isStrOrList e = false) :
    collectDetailList l = .error PyError.typeError := by
  induction l with
  | nil => simp at h
  | cons x rest ih =>
    obtain ⟨e, he, hbad⟩ := h
    cases x with
    | s v =>
        rcases List.mem_cons.mp he with he1 | he2
        · rw [he1] at hbad; simp [isStrOrList] at hbad
        · simp [collectDetailList, Except.map, ih ⟨e, he2, hbad⟩]
    | l es =>
        rcases List.mem_cons.mp he with he1 | he2
        · rw [he1] at hbad; simp [isStrOrList] at hbad
        · simp [collectDetailList, Except.map, ih ⟨e, he2, hbad⟩]
    | d kvs => simp [collectDetailList]
    | other tag => simp [collectDetailList]

/-- Claim C8: camelization is the identity whenever the `CAMELIZE` option
is off, and with the option on it maps `""` to `""`, `"first_name"` to
`"firstName"`, and keeps the leading underscore of `"_special"`. -/
theorem camelize_spec :
    (∀ (st : Settings) (s : String), camelize { st with CAMELIZE := false } s = s) ∧
    camelize camelizeOn "" = "" ∧
    camelize camelizeOn "first_name" = "firstName" ∧
    camelize camelizeOn "_special" = "_special" := by
  refine ⟨fun st s => by simp [camelize], by decide, by decide, by decide⟩

/-- Claim C5: an exception that is neither a recognized Django exception
nor a DRF `APIException` makes the entry point return the fixed
`ServerError` sentinel: status 500, default detail "Server error.", and
nothing derived from the original exception (the result does not depend
on `tag` or on the settings); formatting that sentinel would give a
title-only body. -/
theorem unrecognized_exception_yields_server_error :
    ∀ (st : Settings) (tag : Nat),
      exception_handler st (Exc.unknown tag) = .ok (HandlerResult.unhandled ServerError) ∧
      ServerError.status_code = 500 ∧
      ServerError.default_detail = "Server error." ∧
      format_exc st ServerError =
        .ok { title := "Server error.", detail := none, invalid_params := none } :=
  fun _ _ => ⟨rfl, rfl, rfl, rfl⟩

/-- Claim C4 (code bug): the entry point `exception_handler` uses its
private `_apply_extra_handlers`, which applies only the configured
`EXTRA_HANDLERS` and skips the built-in default handler, so a
`MethodNotAllowed` response keeps the raw template title; by contrast
`handlers.apply_extra_handlers` (what the claim and the tests of the
repository describe) rewrites the default detail to "Method not allowed."
before formatting. -/
theorem entry_point_skips_default_extra_handler :
    exception_handler defaultSettings (Exc.api MethodNotAllowedGET) =
      .ok (HandlerResult.response
        { title := "Method \"{method}\" not allowed."
          detail := some [JVal.s "Method \"GET\" not allowed."]
          invalid_params := none } 405 []) ∧
    apply_extra_handlers defaultSettings (Exc.api MethodNotAllowedGET) =
      Exc.api { MethodNotAllowedGET with default_detail := "Method not allowed." } ∧
    ("Method \"{method}\" not allowed." : String) ≠ "Method not allowed." :=
  ⟨rfl, rfl, by decide⟩

/-- Claim C1 counterexample: a `ValidationError` whose detail is the
singleton list holding exactly its own default detail is not
short-circuited; the formatted response carries the detail. -/
theorem validation_default_detail_not_short_circuited :
    ¬ (∀ (exc : APIExc) (r : APIErrorResponse),
        (exc.detail = ExcDetail.s exc.default_detail ∨
         exc.detail = ExcDetail.l [JVal.s exc.default_detail]) →
        format_exc defaultSettings exc = .ok r →
        r.detail = none ∧ r.invalid_params = none) := by
  intro h
  have hc := (h validationEchoesDefaultDetail
      { title := "Validation error."
        detail := some [JVal.s "Invalid input."]
        invalid_params := none }
      (Or.inr rfl) rfl).1
  simp at hc

/-- Claim C1 (amended): for every non-validation API exception whose
detail equals its own default detail — as a bare string or as a
single-element list containing exactly that string — the formatted
response is title-only. -/
theorem non_validation_default_detail_short_circuit :
    ∀ (st : Settings) (exc : APIExc),
      exc.cls ≠ DrfExcClass.validationError →
      (exc.detail = ExcDetail.s exc.default_detail ∨
       exc.detail = ExcDetail.l [JVal.s exc.default_detail]) →
      format_exc st exc =
        .ok { title := exc.default_detail, detail := none, invalid_params := none } := by
  intro st exc hcls hdet
  have hsame : _is_exc_detail_same_as_default_detail exc = true := by
    rcases hdet with h | h <;> simp [_is_exc_detail_same_as_default_detail, h]
  simp [format_exc, hcls, hsame]

/-- Witness for the amended claim C1: `NotFound()` formats to the
title-only response. -/
theorem non_validation_default_detail_short_circuit_witness :
    format_exc defaultSettings NotFound =
      .ok { title := "Not found.", detail := none, invalid_params := none } :=
  non_validation_default_detail_short_circuit defaultSettings NotFound (by decide) (Or.inl rfl)

/-- Claim C3 counterexample: an empty-string detail does populate the
response: `APIException("")` yields `detail = [""]`, not `null`. -/
theorem empty_string_detail_populates_detail :
    ¬ (∀ (exc : APIExc) (r : APIErrorResponse),
        (exc.detail = ExcDetail.s "" ∨ exc.detail = ExcDetail.l [] ∨
         exc.detail = ExcDetail.d []) →
        format_exc defaultSettings exc = .ok r →
        r.detail = none ∧ r.invalid_params = none) := by
  intro h
  have hc := (h apiExceptionEmptyString
      { title := "A server error occurred."
        detail := some [JVal.s ""]
        invalid_params := none }
      (Or.inl rfl) rfl).1
  simp at hc

/-- Claim C3 (amended): an empty-list or empty-dict detail never
populates `detail` or `invalid_params`; both stay `none`. -/
theorem empty_list_or_dict_detail_yields_no_detail :
    ∀ (st : Settings) (exc : APIExc),
      (exc.detail = ExcDetail.l [] ∨ exc.detail = ExcDetail.d []) →
      (format_exc st exc).map (fun r => (r.detail, r.invalid_params)) = .ok (none, none) := by
  intro st exc h
  by_cases hc : exc.cls = DrfExcClass.validationError <;>
    rcases h with h | h <;>
      simp [format_exc, hc, h, dispatchExcDetail, _is_exc_detail_same_as_default_detail,
        _format_exc_detail_list, collectDetailList, _format_exc_detail_dict,
        flatten_dict, flattenItems, pyDict, gatherErrors, Except.map]

/-- Witness for the amended claim C3: a `ValidationError` with an empty
list detail yields a response with `detail` and `invalid_params` both
unset. -/
theorem empty_list_or_dict_detail_yields_no_detail_witness :
    (format_exc defaultSettings (mkValidationError (ExcDetail.l []))).map
      (fun r => (r.detail, r.invalid_params)) = .ok (none, none) :=
  empty_list_or_dict_detail_yields_no_detail defaultSettings
    (mkValidationError (ExcDetail.l [])) (Or.inl rfl)

/-- Claim C7: the list formatter raises `TypeError` exactly when some
top-level element is neither a string nor a list; otherwise it returns
normally, keeping strings and splicing nested lists in place, one level
only, and setting `detail` only when the result is non-empty. -/
theorem format_exc_detail_list_raises_iff_bad_element :
    ∀ (data : APIErrorResponse) (l : List JVal),
      ((∀ e ∈ l, isStrOrList e = true) →
        _format_exc_detail_list data l =
          .ok (match flattenOneLevel l with
               | [] => data
               | detail => { data with detail := some detail })) ∧
      ((∃ e ∈ l, isStrOrList e = false) →
        _format_exc_detail_list data l = .error PyError.typeError) := by
  intro data l
  constructor
  · intro h
    simp [_format_exc_detail_list, collectDetailList_ok l h]
  · intro h
    simp [_format_exc_detail_list, collectDetailList_err l h]

/-- Witness for claim C7: a good list is flattened one level into
`detail`; a list containing a dict raises `TypeError`. -/
theorem format_exc_detail_list_raises_iff_bad_element_witness :
    _format_exc_detail_list { title := "Validation error." }
        [JVal.s "a", JVal.l [JVal.s "b", JVal.s "c"]] =
      .ok { title := "Validation error."
            detail := some [JVal.s "a", JVal.s "b", JVal.s "c"]
            invalid_params := none } ∧
    _format_exc_detail_list { title := "Validation error." }
        [JVal.d [("question", JVal.s "x")]] =
      .error PyError.typeError := by
  constructor
  · exact (format_exc_detail_list_raises_iff_bad_element _ _).1 (by decide)
  · exact (format_exc_detail_list_raises_iff_bad_element _ _).2
      ⟨JVal.d [("question", JVal.s "x")], List.mem_cons_self _ _, rfl⟩

/-- Claim C10: header extraction tests the optional attributes by
truthiness, not presence: `wait = 0` and `auth_header = ""` produce no
header, and `Retry-After` carries the integer-formatted wait exactly when
`wait` is present and non-zero. -/
theorem response_headers_truthiness :
    ∀ (exc : APIExc),
      ((exc.wait = none ∨ exc.wait = some 0) →
        List.lookup "Retry-After" (_get_response_headers exc) = none) ∧
      ((exc.auth_header = none ∨ exc.auth_header = some "") →
        List.lookup "WWW-Authenticate" (_get_response_headers exc) = none) ∧
      (∀ w : Nat, exc.wait = some w → w ≠ 0 →
        List.lookup "Retry-After" (_get_response_headers exc) = some (toString w)) := by
  intro exc
  refine ⟨?_, ?_, ?_⟩
  · rintro (hw | hw) <;>
      rcases hah : exc.auth_header with _ | s
    · simp [_get_response_headers, hah, hw, List.lookup]
    · by_cases hs : s = "" <;>
        simp [_get_response_headers, hah, hw, hs, List.lookup, beq_www_retry]
    · simp [_get_response_headers, hah, hw, List.lookup]
    · by_cases hs : s = "" <;>
        simp [_get_response_headers, hah, hw, hs, List.lookup, beq_www_retry]
  · rintro (hah | hah) <;>
      rcases hw : exc.wait with _ | n
    · simp [_get_response_headers, hah, hw, List.lookup]
    · by_cases hn : n = 0 <;>
        simp [_get_response_headers, hah, hw, hn, List.lookup, beq_retry_www]
    · simp [_get_response_headers, hah, hw, List.lookup]
    · by_cases hn : n = 0 <;>
        simp [_get_response_headers, hah, hw, hn, List.lookup, beq_retry_www]
  · intro w hw hn
    rcases hah : exc.auth_header with _ | s
    · simp [_get_response_headers, hah, hw, hn, List.lookup]
    · by_cases hs : s = "" <;>
        simp [_get_response_headers, hah, hw, hn, hs, List.lookup, beq_www_retry]

/-- Witness for claim C10: wait 0 and empty auth header yield no headers,
wait 60 yields the header value "60". -/
theorem response_headers_truthiness_witness :
    List.lookup "Retry-After" (_get_response_headers throttledZeroWait) = none ∧
    List.lookup "WWW-Authenticate" (_get_response_headers throttledZeroWait) = none ∧
    List.lookup "Retry-After" (_get_response_headers throttledSixty) = some "60" :=
  ⟨(response_headers_truthiness throttledZeroWait).1 (Or.inr rfl),
   (response_headers_truthiness throttledZeroWait).2.1 (Or.inr rfl),
   (response_headers_truthiness throttledSixty).2.2 60 rfl (by decide)⟩

/-- The dict-formatter loop computes exactly the two specification views:
the invalid params of the non-sentinel keys and the non-field-error
values of the sentinel keys, both in encounter order. -/
theorem gatherErrors_eq (st : Settings) (flat : List (String × JVal)) :
    gatherErrors st flat = (invalidParamsOf st flat, nonFieldValues st flat) := by
  induction flat with
  | nil => rfl
  | cons p rest ih =>
    obtain ⟨k, v⟩ := p
    by_cases hk : isNonFieldKey st k = true <;>
      simp [gatherErrors, invalidParamsOf, nonFieldValues, List.filter_cons, hk, ih]

/-- `_format_exc_detail_dict` on a fresh title-only response is described
by the two specification views, each set only when non-empty. -/
theorem _format_exc_detail_dict_eq (st : Settings) (t : String) (kvs : List (String × JVal)) :
    _format_exc_detail_dict st { title := t } kvs =
      { title := t
        detail := listIfNonempty (nonFieldValues st (flatten_dict st kvs ""))
        invalid_params := listIfNonempty (invalidParamsOf st (flatten_dict st kvs "")) } := by
  unfold _format_exc_detail_dict
  rw [gatherErrors_eq]
  rcases hi : invalidParamsOf st (flatten_dict st kvs "") with _ | ⟨ip, ips⟩ <;>
    rcases hn : nonFieldValues st (flatten_dict st kvs "") with _ | ⟨nf, nfs⟩ <;>
      simp [listIfNonempty]

/-- `format_exc` on a dict-shaped detail: title by exception kind, detail
and invalid params from the flattened dict, each set only when non-empty. -/
theorem format_exc_of_dict (st : Settings) (exc : APIExc) (kvs : List (String × JVal))
    (h : exc.detail = ExcDetail.d kvs) :
    format_exc st exc =
      .ok { title := if exc.cls = DrfExcClass.validationError then "Validation error."
                     else exc.default_detail
            detail := listIfNonempty (nonFieldValues st (flatten_dict st kvs ""))
            invalid_params := listIfNonempty (invalidParamsOf st (flatten_dict st kvs "")) } := by
  by_cases hc : exc.cls = DrfExcClass.validationError <;>
    simp [format_exc, hc, _is_same_of_dict exc kvs h, dispatchExcDetail, h,
      _format_exc_detail_dict_eq]

/-- Claim C2: for every mapping-shaped detail, after flattening, the
coerced values of the sentinel keys (`NON_FIELD_ERRORS_KEY` or `__all__`)
form the response detail and never appear among the invalid params; every
other key becomes exactly one `InvalidParam` (value coerced to a list) in
encounter order; each of the two fields is set only when non-empty. -/
theorem format_exc_dict_detail_characterization :
    ∀ (st : Settings) (exc : APIExc) (kvs : List (String × JVal)),
      exc.detail = ExcDetail.d kvs →
      format_exc st exc =
        .ok { title := if exc.cls = DrfExcClass.validationError then "Validation error."
                       else exc.default_detail
              detail := listIfNonempty (nonFieldValues st (flatten_dict st kvs ""))
              invalid_params := listIfNonempty (invalidParamsOf st (flatten_dict st kvs "")) } :=
  fun st exc kvs h => format_exc_of_dict st exc kvs h

/-- Witness for claim C2, also showing that `detail` and `invalid_params`
can both be non-null in the same response. -/
theorem format_exc_dict_detail_characterization_witness :
    format_exc defaultSettings bothDetailAndParams =
      .ok { title := "Validation error."
            detail := some [JVal.s "General error."]
            invalid_params := some [{ name := "field", reason := [JVal.s "Required."] }] } := by
  rw [format_exc_dict_detail_characterization defaultSettings bothDetailAndParams
    [("non_field_errors", JVal.l [JVal.s "General error."]), ("field", JVal.s "Required.")] rfl]
  have hflat : flatten_dict defaultSettings
      [("non_field_errors", JVal.l [JVal.s "General error."]), ("field", JVal.s "Required.")] "" =
      [("non_field_errors", JVal.l [JVal.s "General error."]), ("field", JVal.s "Required.")] := by
    simp [flatten_dict, flattenItems, joinKey, pyDict, dictInsert, defaultSettings]
  rw [hflat]
  rfl

/-- Inserting a pair with a fresh key appends it. -/
theorem dictInsert_of_not_mem (acc : List (String × JVal)) (p : String × JVal)
    (h : p.1 ∉ acc.map Prod.fst) : dictInsert acc p = acc ++ [p] := by
  induction acc with
  | nil => rfl
  | cons q rest ih =>
    simp only [List.map_cons, List.mem_cons, not_or] at h
    have hqp : ¬q.1 = p.1 := fun hq => h.1 hq.symm
    simp [dictInsert, hqp, ih h.2]

/-- `dict(items)` over pairwise distinct keys keeps the list unchanged. -/
theorem foldl_dictInsert_nodup :
    ∀ (l acc : List (String × JVal)), (((acc ++ l).map Prod.fst).Nodup) →
      l.foldl dictInsert acc = acc ++ l := by
  intro l
  induction l with
  | nil => intro acc _; simp
  | cons p rest ih =>
    intro acc h
    have hmaps : (acc.map Prod.fst ++ p.1 :: rest.map Prod.fst).Nodup := by
      simpa using h
    have hp : p.1 ∉ acc.map Prod.fst := fun hmem =>
      (List.disjoint_of_nodup_append hmaps) hmem (List.mem_cons_self _ _)
    rw [List.foldl_cons, dictInsert_of_not_mem acc p hp]
    have h2 : (((acc ++ [p]) ++ rest).map Prod.fst).Nodup := by
      simpa [List.append_assoc] using h
    rw [ih (acc ++ [p]) h2]
    simp

/-- `pyDict` over pairwise distinct keys is the identity. -/
theorem pyDict_of_nodup (l : List (String × JVal)) (h : (l.map Prod.fst).Nodup) :
    pyDict l = l := by
  have := foldl_dictInsert_nodup l [] (by simpa using h)
  simpa [pyDict] using this

/-- Flattening items of an already-flat dict with no parent key is the
identity on the items. -/
theorem flattenItems_of_flat (sep : String) (d : List (String × JVal))
    (h : ∀ p ∈ d, p.2.isDict = false) : flattenItems sep d "" = d := by
  induction d with
  | nil => simp [flattenItems]
  | cons p rest ih =>
    obtain ⟨k, v⟩ := p
    have hv := h (k, v) (List.mem_cons_self _ _)
    have hrest : ∀ q ∈ rest, q.2.isDict = false := fun q hq => h q (List.mem_cons_of_mem _ hq)
    cases v <;> simp [JVal.isDict] at hv <;> simp [flattenItems, joinKey, ih hrest]

/-- Claim C9: flattening is idempotent on flat inputs: a mapping with
pairwise distinct keys none of whose values is itself a mapping is
returned unchanged (same keys, same order, same values). -/
theorem flatten_dict_idempotent_on_flat :
    ∀ (st : Settings) (d : List (String × JVal)),
      (d.map Prod.fst).Nodup →
      (∀ p ∈ d, p.2.isDict = false) →
      flatten_dict st d "" = d := by
  intro st d hnd hflat
  rw [flatten_dict, flattenItems_of_flat _ _ hflat, pyDict_of_nodup _ hnd]

/-- Witness for claim C9: a concrete flat mapping is unchanged. -/
theorem flatten_dict_idempotent_on_flat_witness :
    flatten_dict defaultSettings [("a", JVal.s "x"), ("b", JVal.l [JVal.s "y"])] "" =
      [("a", JVal.s "x"), ("b", JVal.l [JVal.s "y"])] :=
  flatten_dict_idempotent_on_flat defaultSettings _ (by decide) (by decide)

/-- A good leaf coerces to a non-empty list of strings. -/
theorem coerce_goodLeaf (v : JVal) (h : goodLeaf v = true) :
    coerceToList v ≠ [] ∧ (coerceToList v).all JVal.isStr = true := by
  cases v with
  | s w => simp [coerceToList, JVal.isStr]
  | l vs =>
      simp only [goodLeaf, Bool.and_eq_true, Bool.not_eq_true', List.isEmpty_eq_false] at h
      exact ⟨h.1, by simpa [coerceToList] using h.2⟩
  | d kvs => simp [goodLeaf] at h
  | other t => simp [goodLeaf] at h

/-- Invariants of the list path: the title is kept, the detail is never
the empty list, and the invalid params of the incoming response are
kept (here: `none`). -/
theorem invariants_of_list_path (data : APIErrorResponse) (es : List JVal)
    (r : APIErrorResponse) (hdd : data.detail = none) (hdp : data.invalid_params = none)
    (heq : _format_exc_detail_list data es = .ok r) :
    r.title = data.title ∧ r.detail ≠ some [] ∧ r.invalid_params = none := by
  rcases hcoll : collectDetailList es with err | d
  · simp [_format_exc_detail_list, hcoll] at heq
  · rcases d with _ | ⟨x, xs⟩
    · have hval : _format_exc_detail_list data es = .ok data := by
        simp [_format_exc_detail_list, hcoll]
      rw [hval] at heq
      injection heq with h
      subst h
      exact ⟨rfl, by simp [hdd], hdp⟩
    · have hval : _format_exc_detail_list data es =
          .ok { data with detail := some (x :: xs) } := by
        simp [_format_exc_detail_list, hcoll]
      rw [hval] at heq
      injection heq with h
      subst h
      exact ⟨rfl, by simp, hdp⟩

/-- Claim C6 counterexample: with an empty default detail and a dict
detail holding an empty-list value and a non-string value, the formatted
response has an empty title and an `InvalidParam` with an empty reason
list, refuting the invariant as stated. -/
theorem response_invariant_fails_on_code :
    ¬ (∀ (exc : APIExc) (r : APIErrorResponse),
        format_exc defaultSettings exc = .ok r →
        r.title ≠ "" ∧
        (∀ ips, r.invalid_params = some ips → ∀ ip ∈ ips,
          ip.reason ≠ [] ∧ ip.reason.all JVal.isStr = true)) := by
  intro h
  have heval : format_exc defaultSettings invariantBreaker =
      .ok { title := "", detail := none,
            invalid_params := some [{ name := "field", reason := [] },
                                    { name := "field2", reason := [JVal.other 7] }] } := by
    rw [format_exc_of_dict defaultSettings invariantBreaker
      [("field", JVal.l []), ("field2", JVal.other 7)] rfl]
    have hflat : flatten_dict defaultSettings
        [("field", JVal.l []), ("field2", JVal.other 7)] "" =
        [("field", JVal.l []), ("field2", JVal.other 7)] := by
      simp [flatten_dict, flattenItems, joinKey, pyDict, dictInsert, defaultSettings]
    rw [hflat]
    rfl
  exact (h invariantBreaker _ heval).1 rfl

/-- Claim C6 (amended): provided the default detail of the exception is
non-empty and every flattened mapping value is a string or a non-empty
list of strings, the formatted response satisfies the data-model
invariant: non-empty title, `detail` and `invalid_params` never the empty
list when present, and every `InvalidParam` has a non-empty reason list
of strings. -/
theorem response_invariants_hold_for_wellformed_details :
    ∀ (st : Settings) (exc : APIExc) (r : APIErrorResponse),
      exc.default_detail ≠ "" →
      (∀ kvs, exc.detail = ExcDetail.d kvs →
        (flatten_dict st kvs "").all (fun p => goodLeaf p.2) = true) →
      format_exc st exc = .ok r →
      r.title ≠ "" ∧ r.detail ≠ some [] ∧ r.invalid_params ≠ some [] ∧
      (∀ ips, r.invalid_params = some ips → ∀ ip ∈ ips,
        ip.reason ≠ [] ∧ ip.reason.all JVal.isStr = true) := by
  intro st exc r hdd hleaf heq
  cases hdet : exc.detail with
  | d kvs =>
      rw [format_exc_of_dict st exc kvs hdet] at heq
      injection heq with h
      subst h
      refine ⟨?_, listIfNonempty_ne_some_nil _, listIfNonempty_ne_some_nil _, ?_⟩
      · by_cases hc : exc.cls = DrfExcClass.validationError <;> simp [hc, hdd]
      · intro ips hips ip hip
        have hips2 := listIfNonempty_eq_some hips
        subst hips2
        simp only [invalidParamsOf] at hip
        obtain ⟨p, hpfilter, hpeq⟩ := List.mem_map.mp hip
        have hpflat : p ∈ flatten_dict st kvs "" := List.mem_of_mem_filter hpfilter
        have hg : goodLeaf p.2 = true :=
          List.all_eq_true.mp (hleaf kvs hdet) p hpflat
        have hcg := coerce_goodLeaf p.2 hg
        rw [← hpeq]
        exact hcg
  | s v =>
      by_cases hc : exc.cls = DrfExcClass.validationError
      · rw [format_exc, if_pos hc, hdet] at heq
        simp only [dispatchExcDetail] at heq
        obtain ⟨ht, hne, hnone⟩ := invariants_of_list_path _ _ _ rfl rfl heq
        refine ⟨by rw [ht]; decide, hne, by simp [hnone], ?_⟩
        intro ips hips
        rw [hnone] at hips
        simp at hips
      · by_cases hsame : _is_exc_detail_same_as_default_detail exc = true
        · rw [format_exc, if_neg hc, if_pos hsame] at heq
          injection heq with h
          subst h
          exact ⟨hdd, by simp, by simp, fun ips hips => by simp at hips⟩
        · rw [format_exc, if_neg hc, if_neg hsame, hdet] at heq
          simp only [dispatchExcDetail] at heq
          obtain ⟨ht, hne, hnone⟩ := invariants_of_list_path _ _ _ rfl rfl heq
          refine ⟨by rw [ht]; exact hdd, hne, by simp [hnone], ?_⟩
          intro ips hips
          rw [hnone] at hips
          simp at hips
  | l es =>
      by_cases hc : exc.cls = DrfExcClass.validationError
      · rw [format_exc, if_pos hc, hdet] at heq
        simp only [dispatchExcDetail] at heq
        obtain ⟨ht, hne, hnone⟩ := invariants_of_list_path _ _ _ rfl rfl heq
        refine ⟨by rw [ht]; decide, hne, by simp [hnone], ?_⟩
        intro ips hips
        rw [hnone] at hips
        simp at hips
      · by_cases hsame : _is_exc_detail_same_as_default_detail exc = true
        · rw [format_exc, if_neg hc, if_pos hsame] at heq
          injection heq with h
          subst h
          exact ⟨hdd, by simp, by simp, fun ips hips => by simp at hips⟩
        · rw [format_exc, if_neg hc, if_neg hsame, hdet] at heq
          simp only [dispatchExcDetail] at heq
          obtain ⟨ht, hne, hnone⟩ := invariants_of_list_path _ _ _ rfl rfl heq
          refine ⟨by rw [ht]; exact hdd, hne, by simp [hnone], ?_⟩
          intro ips hips
          rw [hnone] at hips
          simp at hips

/-- Witness for the amended claim C6 at a concrete validation error. -/
theorem response_invariants_hold_for_wellformed_details_witness :
    ("Validation error." : String) ≠ "" ∧
    (some [JVal.s "Error message."] ≠ some ([] : List JVal)) ∧
    ((none : Option (List InvalidParam)) ≠ some []) ∧
    (∀ ips, (none : Option (List InvalidParam)) = some ips → ∀ ip ∈ ips,
      ip.reason ≠ [] ∧ ip.reason.all JVal.isStr = true) :=
  response_invariants_hold_for_wellformed_details defaultSettings
    (mkValidationError (ExcDetail.s "Error message."))
    { title := "Validation error.", detail := some [JVal.s "Error message."],
      invalid_params := none }
    (by decide) (fun kvs hk => nomatch hk) rfl

end DrfSimpleApiErrors
